import Mathlib

/-!
Verification of the alert-evaluation core of the Devops-Dashboard repository
(src/setup/main.py), shallowly embedded in Lean.

Times and percentage values are modelled as rationals (`ℚ`); the Python
wall-clock read `datetime.datetime.now().timestamp()` becomes an explicit
`current_time` parameter, and the module-level globals `ALERT_CONFIG` and
`LAST_ALERT_TIME` are passed explicitly and returned explicitly.  The SMTP
transport inside `send_email_alert`'s `try` block is modelled by an
`Except String Unit` oracle: `Except.ok ()` when every step of the try body
succeeds, `Except.error e` when some step raises (all exceptions are caught
by the blanket `except` clause and become a `False` return).
-/

namespace DevopsDashboard

/-- The `ALERT_CONFIG` dictionary (main.py lines 26–54), restricted to the
fields the alerting logic reads.  The email message/transport settings
(`smtp_server`, `sender_email`, …) only shape the email body and connection,
which the claims never inspect. -/
structure AlertConfig where
  enabled : Bool
  cpu_threshold : ℚ
  memory_threshold : ℚ
  disk_threshold : ℚ
  email_enabled : Bool
  alert_cooldown : ℚ

/-- The concrete configuration constant shipped in the source. -/
def ALERT_CONFIG : AlertConfig where
  enabled := true
  cpu_threshold := 90
  memory_threshold := 85
  disk_threshold := 90
  email_enabled := true
  alert_cooldown := 300

/-- The `LAST_ALERT_TIME` dictionary: a finite map from metric-type strings
to timestamps, modelled as a total function into `Option ℚ` (`none` = key
absent).  All reads in the source go through `.get(metric_type, 0)`. -/
def AlertState : Type := String → Option ℚ

/-- Metric-id string constants, as used throughout main.py. -/
def metric_cpu : String := "cpu"

def metric_memory : String := "memory"

def metric_disk : String := "disk"

/-- The initial `LAST_ALERT_TIME` dictionary (main.py lines 60–64):
`{'cpu': 0, 'memory': 0, 'disk': 0}`, where a stored `0` means "never
sent" per the source's own comment. -/
def LAST_ALERT_TIME : AlertState := fun m =>
  if m = metric_cpu then some 0
  else if m = metric_memory then some 0
  else if m = metric_disk then some 0
  else none

/-- Result of `send_email_alert`: the Python function returns a `bool`
(`sent`); we additionally record whether an SMTP send was attempted at all,
to express the disabled-path contract. -/
structure SendOutcome where
  attempted : Bool
  sent : Bool
  deriving DecidableEq

/-- `send_email_alert` (main.py lines 74–167).  If `email_enabled` is false
it returns `False` without touching the transport; otherwise the whole try
body (message construction, SMTP connect, STARTTLS, login, send, quit) is
summarised by the `transport` oracle, and the blanket `except Exception`
clause turns any raised error into a `False` return. -/
def send_email_alert (cfg : AlertConfig) (transport : Except String Unit)
    (alert_type : String) (current_value threshold : ℚ) : SendOutcome :=
  if cfg.email_enabled = false then
    { attempted := false, sent := false }
  else
    match transport with
    | Except.ok _ => { attempted := true, sent := true }
    | Except.error _ => { attempted := true, sent := false }

/-- Result of one `check_and_alert` call: whether the alert branch was taken
(`fired`), the updated `LAST_ALERT_TIME` dictionary, and the outcome of the
`send_email_alert` call (a no-op outcome when no alert is dispatched). -/
structure GateResult where
  fired : Bool
  state : AlertState
  send : SendOutcome

/-- `check_and_alert` (main.py lines 169–237).  Steps, as in the source:
exit early when alerting is disabled; read
`last_alert = LAST_ALERT_TIME.get(metric_type, 0)`; compute
`cooldown_passed = (current_time - last_alert) > cooldown`; if
`current_value >= threshold and cooldown_passed`, store
`LAST_ALERT_TIME[metric_type] = current_time` and then call
`send_email_alert`. -/
def check_and_alert (cfg : AlertConfig) (transport : Except String Unit)
    (metric_type : String) (current_value threshold : ℚ)
    (current_time : ℚ) (st : AlertState) : GateResult :=
  if cfg.enabled = false then
    { fired := false, state := st, send := { attempted := false, sent := false } }
  else
    let last_alert : ℚ := (st metric_type).getD 0
    let cooldown_passed : Prop := current_time - last_alert > cfg.alert_cooldown
    if current_value ≥ threshold ∧ cooldown_passed then
      { fired := true
        state := fun m => if m = metric_type then some current_time else st m
        send := send_email_alert cfg transport metric_type current_value threshold }
    else
      { fired := false, state := st, send := { attempted := false, sent := false } }

/-- Whether the transport oracle reports that the SMTP try body ran to
completion without raising. -/
def transport_ok : Except String Unit → Bool
  | Except.ok _ => true
  | Except.error _ => false

/-- The stats dictionary returned by `get_system_stats` (main.py lines
292–298), restricted to the numeric fields; the memory and disk entries are
represented by their `percent` components, which are the only parts the
alerting logic reads. -/
structure SystemStats where
  timestamp : ℚ
  cpu_percent : ℚ
  memory_percent : ℚ
  disk_percent : ℚ
  uptime_seconds : ℚ

/-- `get_system_stats` (main.py lines 239–298).  The psutil reads
(`cpu_percent`, `memory['percent']`, `disk['percent']`, `boot_time`) and
the clock are supplied as parameters; the function runs the three
`check_and_alert` calls in source order, threading `LAST_ALERT_TIME`
through them, and returns the stats dictionary together with the final
alert state. -/
def get_system_stats (cfg : AlertConfig) (tr : Except String Unit)
    (now cpu_percent memory_percent disk_percent boot_time : ℚ)
    (st : AlertState) : SystemStats × AlertState :=
  let r1 := check_and_alert cfg tr metric_cpu cpu_percent cfg.cpu_threshold now st
  let r2 := check_and_alert cfg tr metric_memory memory_percent
    cfg.memory_threshold now r1.state
  let r3 := check_and_alert cfg tr metric_disk disk_percent
    cfg.disk_threshold now r2.state
  ({ timestamp := now
     cpu_percent := cpu_percent
     memory_percent := memory_percent
     disk_percent := disk_percent
     uptime_seconds := now - boot_time }, r3.state)

/-- The module-level startup path of main.py: between the definition of
`ALERT_CONFIG` (lines 26–54) and `app.run` (line 698) the source performs
no validation of the configuration values; every configuration is accepted
and the process starts. -/
def startup_config_check (cfg : AlertConfig) : Except String AlertConfig :=
  Except.ok cfg

/-- Modelled from the spec: the range condition whose violation the spec's
`ConfigInvalid` error is meant to reject at startup — every threshold within
[0,100] and the cooldown non-negative.  Stated for comparison with the
source's actual startup behaviour (`startup_config_check`). -/
def configValid (cfg : AlertConfig) : Prop :=
  0 ≤ cfg.cpu_threshold ∧ cfg.cpu_threshold ≤ 100 ∧
  0 ≤ cfg.memory_threshold ∧ cfg.memory_threshold ≤ 100 ∧
  0 ≤ cfg.disk_threshold ∧ cfg.disk_threshold ≤ 100 ∧
  0 ≤ cfg.alert_cooldown

/-- One record of
`psutil.process_iter(['pid','name','status','memory_percent','cpu_percent'])`
(main.py line 303): the five requested fields of `proc.info`. -/
structure ProcInfo where
  pid : ℕ
  name : String
  status : String
  memory_percent : ℚ
  cpu_percent : ℚ

/-- `get_process_info` (main.py lines 300–308).  Each provider entry is
`some info`, or `none` when reading `proc.info` raised
`NoSuchProcess`/`AccessDenied` and the entry was skipped by the
`try`/`except`; the survivors are sorted by `memory_percent` descending
(`sorted(..., key=lambda x: x['memory_percent'], reverse=True)`) and
truncated to the first 15. -/
def get_process_info (procs : List (Option ProcInfo)) : List ProcInfo :=
  ((procs.filterMap id).mergeSort
    fun a b => b.memory_percent ≤ a.memory_percent).take 15

/-- Iterated gate calls for one metric: fold `check_and_alert` over a
chronological list of `(time, value)` samples, returning the final state
and the list of firing instants in order. -/
def run_gate (cfg : AlertConfig) (tr : Except String Unit) (m : String)
    (th : ℚ) : AlertState → List (ℚ × ℚ) → AlertState × List ℚ
  | st, [] => (st, [])
  | st, s :: rest =>
    let r := check_and_alert cfg tr m s.2 th s.1 st
    let rec_result := run_gate cfg tr m th r.state rest
    (rec_result.1, if r.fired then s.1 :: rec_result.2 else rec_result.2)

end DevopsDashboard

namespace DevopsDashboard

/-- C1: Cooldown containment.  With `last_alert_at[metric] = t0` recorded
and an exceeding value, a call at any `t` with `t0 < t ≤ t0 + cooldown`
returns `false` and leaves the state unchanged, and a call at any
`t > t0 + cooldown` returns `true` and sets `last_alert_at[metric] = t`. -/
theorem cooldown_containment (cfg : AlertConfig) (tr : Except String Unit)
    (m : String) (v th t0 t : ℚ) (st : AlertState)
    (hen : cfg.enabled = true) (hlast : st m = some t0) (hv : th ≤ v) :
    ((t0 < t ∧ t ≤ t0 + cfg.alert_cooldown) →
      (check_and_alert cfg tr m v th t st).fired = false ∧
      (check_and_alert cfg tr m v th t st).state = st) ∧
    (t0 + cfg.alert_cooldown < t →
      (check_and_alert cfg tr m v th t st).fired = true ∧
      (check_and_alert cfg tr m v th t st).state m = some t) := by
  unfold check_and_alert
  simp only [hen, hlast, Option.getD_some]
  constructor
  · rintro ⟨-, h2⟩
    rw [if_neg (by simp), if_neg (by push_neg; intro; linarith)]
    exact ⟨rfl, rfl⟩
  · intro h
    rw [if_neg (by simp), if_pos ⟨hv, show cfg.alert_cooldown < t - t0 by linarith⟩]
    exact ⟨rfl, by simp⟩

/-- Witness for C1 at concrete inputs: with a fire recorded at `t0 = 10`
and cooldown `300`, an exceeding sample at `t = 200` is suppressed and an
exceeding sample at `t = 400` fires. -/
theorem cooldown_containment_witness :
    (check_and_alert ALERT_CONFIG (Except.ok ()) metric_cpu 95 90 200
      (fun _ => some 10)).fired = false ∧
    (check_and_alert ALERT_CONFIG (Except.ok ()) metric_cpu 95 90 400
      (fun _ => some 10)).fired = true :=
  ⟨((cooldown_containment ALERT_CONFIG (Except.ok ()) metric_cpu 95 90 10 200
      (fun _ => some 10) rfl rfl (by norm_num)).1 (by norm_num [ALERT_CONFIG])).1,
   ((cooldown_containment ALERT_CONFIG (Except.ok ()) metric_cpu 95 90 10 400
      (fun _ => some 10) rfl rfl (by norm_num)).2 (by norm_num [ALERT_CONFIG])).1⟩

/-- C2 counterexample: the claim asserts a first exceeding sample fires for
every `now` with no lower bound.  In the source an absent (or initial) entry
is read as `0` via `.get(metric_type, 0)`, not as negative infinity, so with
cooldown `300` an exceeding sample (`95 ≥ 90`) at `now = 100` on the initial
never-fired state is suppressed: `100 - 0 > 300` is false. -/
theorem first_fire_counterexample :
    (check_and_alert ALERT_CONFIG (Except.ok ()) metric_cpu 95 90 100
      LAST_ALERT_TIME).fired = false := by
  norm_num [check_and_alert, LAST_ALERT_TIME, metric_cpu, ALERT_CONFIG]

/-- C2 amended: with no prior alert recorded (the stored timestamp is `0`,
which the source's comments gloss as "never sent", or the key is absent),
an exceeding sample fires and records `last_alert_at[metric] = now` exactly
when `now` exceeds the cooldown, i.e. `now - 0 > cooldown`. -/
theorem first_fire_after_cooldown (cfg : AlertConfig) (tr : Except String Unit)
    (m : String) (v th now : ℚ) (st : AlertState)
    (hen : cfg.enabled = true)
    (hlast : st m = some 0 ∨ st m = none)
    (hv : th ≤ v) (hnow : cfg.alert_cooldown < now) :
    (check_and_alert cfg tr m v th now st).fired = true ∧
    (check_and_alert cfg tr m v th now st).state m = some now := by
  unfold check_and_alert
  have hgetd : (st m).getD 0 = 0 := by rcases hlast with h | h <;> simp [h]
  rw [if_neg (by simp [hen]), if_pos ⟨hv, by rw [hgetd]; simpa using hnow⟩]
  exact ⟨rfl, by simp⟩

/-- Witness for the amended C2: on the initial state, an exceeding CPU
sample at `now = 301 > 300` fires and stores the firing instant. -/
theorem first_fire_after_cooldown_witness :
    (check_and_alert ALERT_CONFIG (Except.ok ()) metric_cpu 95 90 301
      LAST_ALERT_TIME).fired = true ∧
    (check_and_alert ALERT_CONFIG (Except.ok ()) metric_cpu 95 90 301
      LAST_ALERT_TIME).state metric_cpu = some 301 :=
  first_fire_after_cooldown ALERT_CONFIG (Except.ok ()) metric_cpu 95 90 301
    LAST_ALERT_TIME rfl (Or.inl (by norm_num [LAST_ALERT_TIME]))
    (by norm_num) (by norm_num [ALERT_CONFIG])

/-- C7 counterexample: with cooldown `0`, two exceeding samples at the same
instant do not both fire.  Starting from the initial state, an exceeding
sample (`90 ≥ 85`) at `t = 5` fires, but a second exceeding sample at the
same `t = 5` is suppressed because the source tests the strict inequality
`(now - last_alert) > 0` and `5 - 5 = 0`. -/
theorem zero_cooldown_counterexample :
    (check_and_alert { ALERT_CONFIG with alert_cooldown := 0 } (Except.ok ())
      metric_cpu 90 85 5 LAST_ALERT_TIME).fired = true ∧
    (check_and_alert { ALERT_CONFIG with alert_cooldown := 0 } (Except.ok ())
      metric_cpu 90 85 5
      (check_and_alert { ALERT_CONFIG with alert_cooldown := 0 } (Except.ok ())
        metric_cpu 90 85 5 LAST_ALERT_TIME).state).fired = false := by
  constructor <;>
    norm_num [check_and_alert, LAST_ALERT_TIME, metric_cpu, ALERT_CONFIG]

/-- C7 amended: with cooldown `0`, every exceeding sample taken at an
instant strictly later than the recorded last-alert time fires (no
suppression); an exceeding sample at exactly the recorded instant is
suppressed by the strict comparison. -/
theorem zero_cooldown_fires (cfg : AlertConfig) (tr : Except String Unit)
    (m : String) (v th t : ℚ) (st : AlertState)
    (hen : cfg.enabled = true) (hC : cfg.alert_cooldown = 0)
    (hv : th ≤ v) (ht : (st m).getD 0 < t) :
    (check_and_alert cfg tr m v th t st).fired = true ∧
    (check_and_alert cfg tr m v th t st).state m = some t := by
  unfold check_and_alert
  rw [if_neg (by simp [hen]), if_pos ⟨hv, by rw [hC]; simpa using ht⟩]
  exact ⟨rfl, by simp⟩

/-- Witness for the amended C7: with cooldown `0` and a fire recorded at
`t = 5`, an exceeding sample at `t = 6 > 5` fires again. -/
theorem zero_cooldown_fires_witness :
    (check_and_alert { ALERT_CONFIG with alert_cooldown := 0 } (Except.ok ())
      metric_cpu 90 85 6 (fun _ => some 5)).fired = true ∧
    (check_and_alert { ALERT_CONFIG with alert_cooldown := 0 } (Except.ok ())
      metric_cpu 90 85 6 (fun _ => some 5)).state metric_cpu = some 6 :=
  zero_cooldown_fires { ALERT_CONFIG with alert_cooldown := 0 } (Except.ok ())
    metric_cpu 90 85 6 (fun _ => some 5) rfl rfl (by norm_num) (by norm_num)

/-- C4: Below-threshold calls are pure.  For any value strictly below the
threshold the gate returns `false`, the state is unchanged, and no send is
attempted, whatever the prior state and the current time. -/
theorem below_threshold_pure (cfg : AlertConfig) (tr : Except String Unit)
    (m : String) (v th now : ℚ) (st : AlertState) (hv : v < th) :
    (check_and_alert cfg tr m v th now st).fired = false ∧
    (check_and_alert cfg tr m v th now st).state = st ∧
    (check_and_alert cfg tr m v th now st).send.attempted = false := by
  unfold check_and_alert
  split
  · exact ⟨rfl, rfl, rfl⟩
  · rw [if_neg (by rintro ⟨h, -⟩; exact absurd h (not_le.mpr hv))]
    exact ⟨rfl, rfl, rfl⟩

/-- Witness for C4: a below-threshold sample (`v = 50 < 90`) on the initial
state returns `false`, leaves the state unchanged, and attempts no send. -/
theorem below_threshold_pure_witness :
    (check_and_alert ALERT_CONFIG (Except.ok ()) metric_cpu 50 90 1000
      LAST_ALERT_TIME).fired = false ∧
    (check_and_alert ALERT_CONFIG (Except.ok ()) metric_cpu 50 90 1000
      LAST_ALERT_TIME).state = LAST_ALERT_TIME ∧
    (check_and_alert ALERT_CONFIG (Except.ok ()) metric_cpu 50 90 1000
      LAST_ALERT_TIME).send.attempted = false :=
  below_threshold_pure ALERT_CONFIG (Except.ok ()) metric_cpu 50 90 1000
    LAST_ALERT_TIME (by norm_num)

/-- Case analysis on one `check_and_alert` call: either the alert branch is
taken — exceeding value, cooldown strictly elapsed — and the state records
the call instant for the metric, or nothing fires and the state is returned
untouched. -/
theorem gate_cases (cfg : AlertConfig) (tr : Except String Unit)
    (m : String) (v th t : ℚ) (st : AlertState) :
    ((check_and_alert cfg tr m v th t st).fired = true ∧
      th ≤ v ∧ cfg.alert_cooldown < t - (st m).getD 0 ∧
      (check_and_alert cfg tr m v th t st).state =
        fun m' => if m' = m then some t else st m') ∨
    ((check_and_alert cfg tr m v th t st).fired = false ∧
      (check_and_alert cfg tr m v th t st).state = st) := by
  unfold check_and_alert
  split
  · exact Or.inr ⟨rfl, rfl⟩
  · by_cases h : v ≥ th ∧ t - (st m).getD 0 > cfg.alert_cooldown
    · rw [if_pos h]
      exact Or.inl ⟨rfl, h.1, h.2, rfl⟩
    · rw [if_neg h]
      exact Or.inr ⟨rfl, rfl⟩

/-- Invariant of iterated gate calls for one metric: along any run whose
sample times are non-decreasing and start no earlier than the recorded
last-alert time, the recorded time never decreases, every fire lands
strictly more than one cooldown after the initial recorded time, and
consecutive fires are strictly more than one cooldown apart. -/
theorem run_gate_invariant (cfg : AlertConfig) (tr : Except String Unit)
    (m : String) (th : ℚ) (samples : List (ℚ × ℚ)) : ∀ (st : AlertState),
    (samples.map Prod.fst).Pairwise (· ≤ ·) →
    (∀ s ∈ samples, (st m).getD 0 ≤ s.1) →
    (st m).getD 0 ≤ ((run_gate cfg tr m th st samples).1 m).getD 0 ∧
    (∀ f ∈ (run_gate cfg tr m th st samples).2,
      (st m).getD 0 + cfg.alert_cooldown < f) ∧
    (run_gate cfg tr m th st samples).2.Chain'
      (fun a b => a + cfg.alert_cooldown < b) := by
  induction samples with
  | nil =>
    intro st _ _
    simp [run_gate]
  | cons s rest ih =>
    intro st hmono hstart
    rw [List.map_cons, List.pairwise_cons] at hmono
    obtain ⟨hhead, hrest⟩ := hmono
    have hs1 : (st m).getD 0 ≤ s.1 := hstart s (List.mem_cons_self s rest)
    simp only [run_gate]
    rcases gate_cases cfg tr m s.2 th s.1 st with
      ⟨hf, -, hcool, hstEq⟩ | ⟨hf, hstEq⟩
    · have hst1 :
          ((check_and_alert cfg tr m s.2 th s.1 st).state m).getD 0 = s.1 := by
        rw [hstEq]; simp
      have ihres := ih (check_and_alert cfg tr m s.2 th s.1 st).state hrest
        (by
          intro x hx
          rw [hst1]
          exact hhead x.1 (List.mem_map_of_mem Prod.fst hx))
      rw [hst1] at ihres
      refine ⟨le_trans hs1 ihres.1, ?_, ?_⟩
      · simp only [hf, if_true]
        intro f hfmem
        rcases List.mem_cons.mp hfmem with rfl | hfmem'
        · linarith
        · have := ihres.2.1 f hfmem'
          linarith
      · simp only [hf, if_true]
        refine List.chain'_cons'.mpr ⟨?_, ihres.2.2⟩
        intro y hy
        have := ihres.2.1 y (List.mem_of_mem_head? hy)
        linarith
    · have ihres := ih st hrest
        (fun x hx => hstart x (List.mem_cons_of_mem s hx))
      rw [hstEq]
      simpa only [hf, if_false] using ihres

/-- C5: State invariant of the gate.  Over any chronological run of samples
for one metric (times non-decreasing, starting no earlier than the recorded
last-alert time), the recorded `last_alert_at` value never decreases, and
any two consecutive fires are separated by strictly more than the
cooldown. -/
theorem last_alert_monotone_and_spaced (cfg : AlertConfig)
    (tr : Except String Unit) (m : String) (th : ℚ) (st : AlertState)
    (samples : List (ℚ × ℚ))
    (hmono : (samples.map Prod.fst).Pairwise (· ≤ ·))
    (hstart : ∀ s ∈ samples, (st m).getD 0 ≤ s.1) :
    (st m).getD 0 ≤ ((run_gate cfg tr m th st samples).1 m).getD 0 ∧
    (run_gate cfg tr m th st samples).2.Chain'
      (fun a b => a + cfg.alert_cooldown < b) :=
  ⟨(run_gate_invariant cfg tr m th samples st hmono hstart).1,
   (run_gate_invariant cfg tr m th samples st hmono hstart).2.2⟩

/-- Witness for C5: running the CPU gate over exceeding samples at times
400, 500, 800 from the initial state (fires at 400 and 800, suppression at
500), the recorded time grows and the fires are more than 300 apart. -/
theorem last_alert_monotone_and_spaced_witness :
    (LAST_ALERT_TIME metric_cpu).getD 0 ≤
      ((run_gate ALERT_CONFIG (Except.ok ()) metric_cpu 90 LAST_ALERT_TIME
        [(400, 95), (500, 95), (800, 95)]).1 metric_cpu).getD 0 ∧
    (run_gate ALERT_CONFIG (Except.ok ()) metric_cpu 90 LAST_ALERT_TIME
      [(400, 95), (500, 95), (800, 95)]).2.Chain'
      (fun a b => a + ALERT_CONFIG.alert_cooldown < b) :=
  last_alert_monotone_and_spaced ALERT_CONFIG (Except.ok ()) metric_cpu 90
    LAST_ALERT_TIME [(400, 95), (500, 95), (800, 95)]
    (by norm_num [List.pairwise_cons])
    (by
      intro s hs
      fin_cases hs <;> norm_num [LAST_ALERT_TIME, metric_cpu])

/-- C10: `send_email_alert` is total over transport outcomes.  Whatever the
transport does, the function returns a plain boolean outcome: when email
alerts are disabled it returns `False` with no send attempted; otherwise a
send is attempted and the result is `True` exactly when the whole send path
completed, every raised exception being converted to `False`. -/
theorem send_email_alert_total (cfg : AlertConfig) (tr : Except String Unit)
    (alert_type : String) (v th : ℚ) :
    send_email_alert cfg tr alert_type v th =
      { attempted := cfg.email_enabled,
        sent := cfg.email_enabled && transport_ok tr } := by
  unfold send_email_alert transport_ok
  cases h : cfg.email_enabled <;> cases tr <;> simp [h]

/-- C8 counterexample: the claim says a threshold outside [0,100] makes the
process fail at startup with `ConfigInvalid`.  The source's startup path
performs no validation at all: a configuration with `cpu_threshold = 150`
violates the spec's range condition yet is accepted and the process runs. -/
theorem config_validation_counterexample :
    ¬ configValid { ALERT_CONFIG with cpu_threshold := 150 } ∧
    startup_config_check { ALERT_CONFIG with cpu_threshold := 150 } =
      Except.ok { ALERT_CONFIG with cpu_threshold := 150 } :=
  ⟨fun h => absurd h.2.1 (by norm_num), rfl⟩

/-- C8 amended: the startup path validates nothing — every configuration is
accepted and the process runs with it — but the one configuration the
shipped source actually runs with, the hardcoded `ALERT_CONFIG`, does have
all thresholds in [0,100] and a non-negative cooldown. -/
theorem config_accepted_and_shipped_valid :
    (∀ cfg : AlertConfig, startup_config_check cfg = Except.ok cfg) ∧
    configValid ALERT_CONFIG :=
  ⟨fun _ => rfl, by norm_num [configValid, ALERT_CONFIG]⟩

/-- C9: the `/api/processes` result is always at most 15 records, pairwise
sorted by `memory_percent` in descending order, whatever the provider
reports; each record carries exactly the fields `pid`, `name`, `status`,
`memory_percent`, `cpu_percent` by construction of `ProcInfo`. -/
theorem process_listing_contract (procs : List (Option ProcInfo)) :
    (get_process_info procs).length ≤ 15 ∧
    (get_process_info procs).Pairwise
      (fun a b => b.memory_percent ≤ a.memory_percent) := by
  constructor
  · exact List.length_take_le 15 _
  · have htrans : ∀ a b c : ProcInfo,
        (decide (b.memory_percent ≤ a.memory_percent)) = true →
        (decide (c.memory_percent ≤ b.memory_percent)) = true →
        (decide (c.memory_percent ≤ a.memory_percent)) = true := by
      intro a b c hab hbc
      simp only [decide_eq_true_eq] at *
      linarith
    have htotal : ∀ a b : ProcInfo,
        ((decide (b.memory_percent ≤ a.memory_percent)) ||
         (decide (a.memory_percent ≤ b.memory_percent))) = true := by
      intro a b
      simpa using le_total b.memory_percent a.memory_percent
    have hs := List.sorted_mergeSort htrans htotal (procs.filterMap id)
    exact List.Pairwise.sublist (List.take_sublist 15 _)
      (hs.imp fun h => by simpa using h)

/-- C6: Notifier-failure isolation.  With the transport failing, an
exceeding call with elapsed cooldown still fires and records `now` — the
state update happens before the send attempt — the failed send is reported
as `False` rather than an exception, the gate behaves (in firing decision
and state) exactly as with a succeeding transport, and the stats returned
to the metrics-serving caller are identical whatever the transport did. -/
theorem notifier_failure_isolated (cfg : AlertConfig) (e : String)
    (m : String) (v th now : ℚ) (st : AlertState)
    (hen : cfg.enabled = true) (hv : th ≤ v)
    (hcool : (st m).getD 0 + cfg.alert_cooldown < now) :
    (check_and_alert cfg (Except.error e) m v th now st).fired = true ∧
    (check_and_alert cfg (Except.error e) m v th now st).state m = some now ∧
    (check_and_alert cfg (Except.error e) m v th now st).send.sent = false ∧
    (check_and_alert cfg (Except.error e) m v th now st).fired =
      (check_and_alert cfg (Except.ok ()) m v th now st).fired ∧
    (check_and_alert cfg (Except.error e) m v th now st).state =
      (check_and_alert cfg (Except.ok ()) m v th now st).state ∧
    (∀ now' c p d b st',
      (get_system_stats cfg (Except.error e) now' c p d b st').1 =
      (get_system_stats cfg (Except.ok ()) now' c p d b st').1) := by
  have hfire : ∀ tr : Except String Unit,
      check_and_alert cfg tr m v th now st =
        { fired := true
          state := fun m' => if m' = m then some now else st m'
          send := send_email_alert cfg tr m v th } := by
    intro tr
    unfold check_and_alert
    rw [if_neg (by simp [hen]),
      if_pos ⟨hv, show cfg.alert_cooldown < now - (st m).getD 0 by linarith⟩]
  refine ⟨by rw [hfire], by rw [hfire]; simp, ?_, by rw [hfire, hfire],
    by rw [hfire, hfire], fun _ _ _ _ _ _ => rfl⟩
  rw [hfire]
  show (send_email_alert cfg (Except.error e) m v th).sent = false
  unfold send_email_alert
  cases h : cfg.email_enabled <;> simp [h]

/-- Witness for C6: with the shipped configuration, a failing transport, an
exceeding CPU value and elapsed cooldown, the gate fires, records the
instant, reports the send as failed, agrees with the succeeding-transport
run, and the stats handed to the caller are unchanged. -/
theorem notifier_failure_isolated_witness :
    (check_and_alert ALERT_CONFIG (Except.error ("smtp down")) metric_cpu 95 90
      400 LAST_ALERT_TIME).fired = true ∧
    (check_and_alert ALERT_CONFIG (Except.error ("smtp down")) metric_cpu 95 90
      400 LAST_ALERT_TIME).state metric_cpu = some 400 ∧
    (check_and_alert ALERT_CONFIG (Except.error ("smtp down")) metric_cpu 95 90
      400 LAST_ALERT_TIME).send.sent = false ∧
    (check_and_alert ALERT_CONFIG (Except.error ("smtp down")) metric_cpu 95 90
      400 LAST_ALERT_TIME).fired =
      (check_and_alert ALERT_CONFIG (Except.ok ()) metric_cpu 95 90
        400 LAST_ALERT_TIME).fired ∧
    (check_and_alert ALERT_CONFIG (Except.error ("smtp down")) metric_cpu 95 90
      400 LAST_ALERT_TIME).state =
      (check_and_alert ALERT_CONFIG (Except.ok ()) metric_cpu 95 90
        400 LAST_ALERT_TIME).state ∧
    (∀ now' c p d b st',
      (get_system_stats ALERT_CONFIG (Except.error ("smtp down")) now' c p d b
        st').1 =
      (get_system_stats ALERT_CONFIG (Except.ok ()) now' c p d b st').1) :=
  notifier_failure_isolated ALERT_CONFIG ("smtp down") metric_cpu 95 90 400
    LAST_ALERT_TIME rfl (by norm_num)
    (by norm_num [LAST_ALERT_TIME, metric_cpu, ALERT_CONFIG])

end DevopsDashboard
